import Mathlib

/-!
Shallow embedding of `src/server/model/model.py` (a Flask inference service
for diabetic-retinopathy classification with a TFLite model), together with
theorems settling the frozen claims about it.

Modelling conventions:
- Machine floats are modelled by `ℚ` (the claims concern ordering, ranges
  and exact index selection, not rounding).
- The external framework calls (`tf.lite.Interpreter`, `allocate_tensors`,
  PIL decoding, the interpreter invocation) are opaque collaborators; an
  `Env` record carries their outcomes and values, and the module level
  globals (`interpreter`, `input_details`, `output_details`) form a
  `ServerState` threaded explicitly through the handlers.
- Fallible Python code (raised exceptions) is modelled with `Except`; the
  `try/except` at the `/predict` boundary becomes the explicit error
  branches of `predict`.
-/

namespace DRModel

/-- JSON values, as produced by Flask `jsonify`. -/
inductive Json where
  | str : String → Json
  | num : ℚ → Json
  | bool : Bool → Json
  | obj : List (String × Json) → Json
deriving Repr

/-- An HTTP response: status code plus JSON body. -/
structure HttpResponse where
  status : Nat
  body : Json
deriving Repr

/-- Constant `MODEL_PATH = "./my_model.tflite"` (model.py line 10). -/
def MODEL_PATH : String := "./my_model.tflite"

/-- PIL image modes that occur in the claims (RGB, RGBA, grayscale L,
palette P). -/
inductive ImgMode where
  | RGB
  | RGBA
  | L
  | P
deriving Repr, DecidableEq

/-- A decoded image: dimensions, channel mode and a total pixel function
`pixel y x c` giving the uint8 sample of channel `c` at row `y`, column
`x`.  The function is total; well-formedness (`Image.WF`) bounds every
sample by 255 as uint8 storage does. -/
structure Image where
  width : Nat
  height : Nat
  mode : ImgMode
  pixel : Nat → Nat → Nat → Nat

/-- Every stored sample fits in a byte, as PIL uint8 images guarantee. -/
def Image.WF (img : Image) : Prop :=
  ∀ y x c, img.pixel y x c ≤ 255

/-- Conversion `image.convert("RGB")` (model.py line 124): produce a 3-channel image.
Grayscale and palette values are replicated into the channels; an alpha
channel is dropped.  Samples are drawn from the source image, which is all
the claims need (the exact palette/compositing arithmetic of PIL happens
inside the opaque decoder and stays inside the byte range). -/
def Image.convertRGB (img : Image) : Image :=
  { width := img.width
    height := img.height
    mode := ImgMode.RGB
    pixel := fun y x c =>
      match img.mode with
      | ImgMode.RGB => img.pixel y x c
      | ImgMode.RGBA => img.pixel y x c
      | ImgMode.L => img.pixel y x 0
      | ImgMode.P => img.pixel y x 0 }

/-- Resizing `image.resize((width, height))` (model.py line 84).  PIL takes the
target size as `(width, height)` and returns an image of exactly that
size; resampling draws (clamped) values from the source, modelled here by
nearest-neighbour sampling, which like every PIL uint8 filter keeps every
sample inside the byte range. -/
def Image.resize (img : Image) (size : Nat × Nat) : Image :=
  { width := size.1
    height := size.2
    mode := img.mode
    pixel := fun y x c =>
      img.pixel (y * img.height / size.2) (x * img.width / size.1) c }

/-- Numeric element type of a tensor; the code only ever builds float32
(`np.array(image, dtype=np.float32)`, model.py line 87). -/
inductive DType where
  | float32
deriving Repr, DecidableEq

/-- A numpy array: a shape, an element type, and a total indexing
function from index lists to values. -/
structure Tensor where
  shape : List Nat
  dtype : DType
  val : List Nat → ℚ

/-- Shape of `np.array(image)` for a PIL image: `(h, w, 3)` for RGB,
`(h, w, 4)` for RGBA, `(h, w)` for single-channel modes. -/
def npShape (img : Image) : List Nat :=
  match img.mode with
  | ImgMode.RGB => [img.height, img.width, 3]
  | ImgMode.RGBA => [img.height, img.width, 4]
  | ImgMode.L => [img.height, img.width]
  | ImgMode.P => [img.height, img.width]

/-- Normalisation `np.array(image, dtype=np.float32) / 255.0` (model.py line 87):
the pixel grid as a float32 array with every sample divided by 255. -/
def np_array_float32_div255 (img : Image) : Tensor :=
  { shape := npShape img
    dtype := DType.float32
    val := fun idx =>
      match idx with
      | [y, x, c] => (img.pixel y x c : ℚ) / 255
      | [y, x] => (img.pixel y x 0 : ℚ) / 255
      | _ => 0 }

/-- Batching `np.expand_dims(image, axis=0)` (model.py line 90): prepend a batch
axis of size 1; index 0 on the new axis reads the original array. -/
def np_expand_dims0 (t : Tensor) : Tensor :=
  { shape := 1 :: t.shape
    dtype := t.dtype
    val := fun idx =>
      match idx with
      | 0 :: rest => t.val rest
      | _ => 0 }

/-- Function `preprocess_image(image, input_shape)` (model.py lines 77-92):
take height and width from positions 1 and 2 of the model input shape,
resize, convert to float32 in [0,1] by dividing by 255, and add the
batch dimension. -/
def preprocess_image (image : Image) (input_shape : List Nat) : Tensor :=
  let height := input_shape.getD 1 0
  let width := input_shape.getD 2 0
  let resized := image.resize (width, height)
  let arr := np_array_float32_div255 resized
  np_expand_dims0 arr

/-- The entry of `get_input_details()` / `get_output_details()` that the
code reads: a tensor index and a shape. -/
structure InterpDetails where
  index : Nat
  shape : List Nat
deriving Repr, DecidableEq

/-- The module level globals of model.py (lines 17-19): `interpreter`,
`input_details`, `output_details`, each initialised to `None`. -/
structure ServerState where
  interpreter : Option Nat
  input_details : Option InterpDetails
  output_details : Option InterpDetails
deriving Repr, DecidableEq

/-- State right after module import (model.py lines 17-19): all three
globals are `None`.  Import time performs no validation of the label
table against the model. -/
def initialState : ServerState :=
  { interpreter := none, input_details := none, output_details := none }

/-- The ways `load_tflite_model` can raise. -/
inductive LoadError where
  | fileNotFound
  | deserializeError
  | allocateError
deriving Repr, DecidableEq

/-- Outcomes of the opaque collaborators for one worker: whether the
model file exists, whether `tf.lite.Interpreter(...)` succeeds, whether
`allocate_tensors()` succeeds, the handle and details produced on
success, and the output row `get_tensor(output_details[0]["index"])[0]`
the interpreter yields for a given input tensor. -/
structure Env where
  modelFileExists : Bool
  constructOk : Bool
  allocOk : Bool
  handle : Nat
  inDetails : InterpDetails
  outDetails : InterpDetails
  infer : Tensor → List ℚ

/-- Result of one call to `load_tflite_model`: the globals afterwards,
the returned triple or the raised error, and whether the call touched
the filesystem / attempted a load at all (the early-return path when the
interpreter is already set performs no I/O). -/
structure LoadResult where
  state : ServerState
  outcome : Except LoadError (Nat × Option InterpDetails × Option InterpDetails)
  attemptedLoad : Bool

/-- Function `load_tflite_model()` (model.py lines 22-56).  If `interpreter` is not
`None` the function skips the whole body and returns the existing triple.
Otherwise it checks file existence (raising `FileNotFoundError` if
absent), constructs the interpreter — the assignment to the global
`interpreter` happens as soon as the constructor returns, before
`allocate_tensors()` runs — then allocates tensors and stores the input
and output details.  Any exception is re-raised to the caller. -/
def load_tflite_model (env : Env) (s : ServerState) : LoadResult :=
  match s.interpreter with
  | some h => { state := s, outcome := Except.ok (h, s.input_details, s.output_details), attemptedLoad := false }
  | none =>
    if env.modelFileExists = false then
      { state := s, outcome := Except.error LoadError.fileNotFound, attemptedLoad := true }
    else if env.constructOk = false then
      { state := s, outcome := Except.error LoadError.deserializeError, attemptedLoad := true }
    else
      let s1 : ServerState := { s with interpreter := some env.handle }
      if env.allocOk = false then
        { state := s1, outcome := Except.error LoadError.allocateError, attemptedLoad := true }
      else
        let s2 : ServerState :=
          { s1 with input_details := some env.inDetails, output_details := some env.outDetails }
        { state := s2
          outcome := Except.ok (env.handle, some env.inDetails, some env.outDetails)
          attemptedLoad := true }

/-- Label table `class_names` (model.py line 20). -/
def class_names : List String :=
  ["No DR", "Mild", "Moderate", "Severe", "Proliferative DR"]

/-- The `model_status` string computed by the health endpoint
(model.py line 66): `"loaded" if interpreter is not None else "not loaded"`. -/
def health_model_status (s : ServerState) : String :=
  if s.interpreter.isSome then "loaded" else "not loaded"

/-- Endpoint `GET /health` (model.py lines 62-75). -/
def health (env : Env) (s : ServerState) : HttpResponse :=
  { status := 200
    body := Json.obj
      [("status", Json.str "healthy"),
       ("model_status", Json.str (health_model_status s)),
       ("model_file_exists", Json.bool env.modelFileExists),
       ("model_type", Json.str "TFLite")] }

/-- Endpoint `GET /` (model.py lines 58-60). -/
def home : HttpResponse :=
  { status := 200
    body := Json.obj [("message", Json.str "Retinopathy API running with TFLite")] }

/-- Function `np.argmax` on a vector: the index of the first occurrence of the
maximum value (numpy documents that ties return the first occurrence).
On the empty list numpy raises; `predict` checks for that case before
calling, so the value at `[]` is never consulted. -/
def np_argmax : List ℚ → Nat
  | [] => 0
  | [_] => 0
  | x :: y :: ys =>
    let k := np_argmax (y :: ys)
    if x < (y :: ys).getD k 0 then k + 1 else 0

/-- The `all_probabilities` object of the success response (model.py
lines 153-156): one entry per label-table position, pairing
`class_names[i]` with `float(predictions[i])`. -/
def jsonify_probabilities (predictions : List ℚ) : Json :=
  Json.obj ((List.range class_names.length).map
    (fun i => (class_names.getD i "", Json.num (predictions.getD i 0))))

/-- One `POST /predict` request: whether the multipart form has a `file`
field, the filename, and the result of `Image.open` on the uploaded
stream (`none` models undecodable bytes, for which PIL raises). -/
structure PredictRequest where
  hasFilePart : Bool
  filename : String
  decoded : Option Image

/-- Result of one `/predict` call: the HTTP response, the globals
afterwards, and whether `load_tflite_model` was invoked. -/
structure PredictOutcome where
  response : HttpResponse
  state : ServerState
  loaderInvoked : Bool

/-- The conversion step of `predict` (model.py lines 122-124): convert to
RGB exactly when the mode differs from RGB. -/
def toRGB (img : Image) : Image :=
  if img.mode ≠ ImgMode.RGB then img.convertRGB else img

/-- The tensor `predict` feeds to the interpreter (model.py lines
122-128): RGB conversion followed by `preprocess_image` with the shape
declared by the loaded model input details. -/
def pipelineTensor (img : Image) (input_shape : List Nat) : Tensor :=
  preprocess_image (toRGB img) input_shape

/-- Endpoint `POST /predict` (model.py lines 94-164).  Validation of the `file`
field and filename happens before the loader is invoked; the whole body
sits in a `try/except` that converts any raised exception into a 500
JSON error response (the traceback is only logged, never returned).
Failure points after validation, in source order: the loader raising;
`Image.open` raising on undecodable bytes; `input_details[0]` on a
`None` value (reachable when a previous load attempt died between
interpreter construction and detail retrieval); `output_details[0]`
likewise; `np.argmax` on an empty output row; `class_names[...]` when
the argmax index falls outside the label table; `predictions[i]` inside
the comprehension when the output row is shorter than the label
table. -/
def predict (env : Env) (s : ServerState) (req : PredictRequest) : PredictOutcome :=
  if req.hasFilePart = false then
    { response := { status := 400, body := Json.obj [("error", Json.str "No file part in request")] }
      state := s, loaderInvoked := false }
  else if req.filename = "" then
    { response := { status := 400, body := Json.obj [("error", Json.str "No selected file")] }
      state := s, loaderInvoked := false }
  else
    let lr := load_tflite_model env s
    match lr.outcome with
    | Except.error _ =>
      { response := { status := 500, body := Json.obj [("error", Json.str "model load failed")] }
        state := lr.state, loaderInvoked := true }
    | Except.ok (_, idet?, odet?) =>
      match req.decoded with
      | none =>
        { response := { status := 500, body := Json.obj [("error", Json.str "cannot identify image file")] }
          state := lr.state, loaderInvoked := true }
      | some img =>
        match idet? with
        | none =>
          { response := { status := 500, body := Json.obj [("error", Json.str "NoneType object is not subscriptable")] }
            state := lr.state, loaderInvoked := true }
        | some idet =>
          match odet? with
          | none =>
            { response := { status := 500, body := Json.obj [("error", Json.str "NoneType object is not subscriptable")] }
              state := lr.state, loaderInvoked := true }
          | some _ =>
            let predictions := env.infer (pipelineTensor img idet.shape)
            if predictions = [] then
              { response := { status := 500, body := Json.obj [("error", Json.str "attempt to get argmax of an empty sequence")] }
                state := lr.state, loaderInvoked := true }
            else
              let pci := np_argmax predictions
              if pci < class_names.length then
                if class_names.length ≤ predictions.length then
                  { response :=
                      { status := 200
                        body := Json.obj
                          [("predicted_stage", Json.str (class_names.getD pci "")),
                           ("confidence", Json.num (predictions.getD pci 0)),
                           ("all_probabilities", jsonify_probabilities predictions)] }
                    state := lr.state, loaderInvoked := true }
                else
                  { response := { status := 500, body := Json.obj [("error", Json.str "list index out of range")] }
                    state := lr.state, loaderInvoked := true }
              else
                { response := { status := 500, body := Json.obj [("error", Json.str "list index out of range")] }
                  state := lr.state, loaderInvoked := true }

/-! Two threads interleaved inside `load_tflite_model`.

The loader body has no lock.  Its observable atomic steps per thread,
in the success environment the concurrency claim speaks about (model
file present, construction and allocation succeeding), are: the
`interpreter is None` check (model.py line 26), the construction plus
global assignment (line 40), and the allocation plus detail storage
(lines 41-45).  `RaceState` holds the shared globals plus each thread's
program counter; a schedule is the list of thread choices. -/

/-- Program counter of one thread running the loader body. -/
inductive TPhase where
  | start
  | constructing
  | allocating
  | done
deriving Repr, DecidableEq

/-- Shared globals plus both thread positions. `loads` counts completed
interpreter constructions; `tNEarly` records that thread N returned a
handle whose details were not yet stored. -/
structure RaceState where
  interp : Option Nat
  detailsSet : Bool
  loads : Nat
  t1 : TPhase
  t2 : TPhase
  t1Early : Bool
  t2Early : Bool
deriving Repr, DecidableEq

/-- Both threads at the `interpreter is None` check, globals fresh. -/
def raceInit : RaceState :=
  { interp := none, detailsSet := false, loads := 0
    t1 := TPhase.start, t2 := TPhase.start
    t1Early := false, t2Early := false }

/-- One atomic step of the chosen thread (with `false` naming thread 1 and
`true` naming thread 2) through the unguarded check-then-load sequence. -/
def raceStep (handle : Nat) (s : RaceState) (tid : Bool) : RaceState :=
  if tid = false then
    match s.t1 with
    | TPhase.start =>
      match s.interp with
      | some _ => { s with t1 := TPhase.done, t1Early := !s.detailsSet }
      | none => { s with t1 := TPhase.constructing }
    | TPhase.constructing =>
      { s with t1 := TPhase.allocating, interp := some handle, loads := s.loads + 1 }
    | TPhase.allocating => { s with t1 := TPhase.done, detailsSet := true }
    | TPhase.done => s
  else
    match s.t2 with
    | TPhase.start =>
      match s.interp with
      | some _ => { s with t2 := TPhase.done, t2Early := !s.detailsSet }
      | none => { s with t2 := TPhase.constructing }
    | TPhase.constructing =>
      { s with t2 := TPhase.allocating, interp := some handle, loads := s.loads + 1 }
    | TPhase.allocating => { s with t2 := TPhase.done, detailsSet := true }
    | TPhase.done => s

/-- Run a schedule of thread choices from the fresh two-thread state. -/
def raceRun (handle : Nat) (sched : List Bool) : RaceState :=
  sched.foldl (raceStep handle) raceInit

/-! Concrete sample data used by witnesses and counterexamples. -/

/-- A small all-black RGB image. -/
def sampleImg : Image :=
  { width := 2, height := 2, mode := ImgMode.RGB, pixel := fun _ _ _ => 0 }

/-- A small mid-gray grayscale image. -/
def grayImg : Image :=
  { width := 3, height := 2, mode := ImgMode.L, pixel := fun _ _ _ => 128 }

/-- Input details declaring a (1, 4, 4, 3) input shape. -/
def sampleDetailsIn : InterpDetails := { index := 0, shape := [1, 4, 4, 3] }

/-- Output details declaring a (1, 5) output shape. -/
def sampleDetailsOut : InterpDetails := { index := 1, shape := [1, 5] }

/-- Environment in which every external step succeeds and the model
emits the five scores [1, 3, 3, 2, 0] (a tie between indices 1 and 2). -/
def envOk : Env :=
  { modelFileExists := true, constructOk := true, allocOk := true
    handle := 7, inDetails := sampleDetailsIn, outDetails := sampleDetailsOut
    infer := fun _ => [1, 3, 3, 2, 0] }

/-- Environment in which `allocate_tensors()` raises after the
interpreter constructor has already returned. -/
def envAllocFail : Env := { envOk with allocOk := false }

/-- Environment in which the model file is absent. -/
def envNoFile : Env := { envOk with modelFileExists := false }

/-- Environment whose model emits six scores against the five-entry
label table, with the maximum at index 5. -/
def envSix : Env := { envOk with infer := fun _ => [0, 0, 0, 0, 0, 1] }

/-- A well-formed request carrying a decodable image. -/
def reqValid : PredictRequest :=
  { hasFilePart := true, filename := "retina.png", decoded := some sampleImg }

/-- A request whose `file` field holds bytes PIL cannot decode. -/
def reqBadImage : PredictRequest :=
  { hasFilePart := true, filename := "bad.png", decoded := none }

/-- A request with no `file` field in the multipart form. -/
def reqNoFile : PredictRequest :=
  { hasFilePart := false, filename := "", decoded := none }

/-- Globals of a worker that has already completed a successful load. -/
def loadedState : ServerState :=
  { interpreter := some 5
    input_details := some sampleDetailsIn
    output_details := some sampleDetailsOut }

/-! Helper lemmas shared by the claim theorems. -/

/-- The conversion step always yields an RGB-mode image. -/
lemma toRGB_mode (img : Image) : (toRGB img).mode = ImgMode.RGB := by
  unfold toRGB
  split
  · rfl
  · rename_i h
    exact not_not.mp h

/-- Resizing does not change the mode, so the pipeline image is RGB. -/
lemma resize_toRGB_mode (img : Image) (size : Nat × Nat) :
    ((toRGB img).resize size).mode = ImgMode.RGB :=
  toRGB_mode img

/-- RGB conversion keeps every sample within the byte range. -/
lemma toRGB_WF (img : Image) (h : img.WF) : (toRGB img).WF := by
  unfold toRGB
  split
  · intro y x c
    show (match img.mode with
      | ImgMode.RGB => img.pixel y x c
      | ImgMode.RGBA => img.pixel y x c
      | ImgMode.L => img.pixel y x 0
      | ImgMode.P => img.pixel y x 0) ≤ 255
    cases img.mode <;> apply h
  · exact h

/-- Resizing keeps every sample within the byte range. -/
lemma resize_WF (img : Image) (size : Nat × Nat) (h : img.WF) :
    (img.resize size).WF :=
  fun _ _ _ => h _ _ _

/-- Whenever `load_tflite_model` returns instead of raising, the global
interpreter afterwards is set. -/
lemma load_ok_interpreter_isSome (env : Env) (s : ServerState)
    (t : Nat × Option InterpDetails × Option InterpDetails)
    (hout : (load_tflite_model env s).outcome = Except.ok t) :
    (load_tflite_model env s).state.interpreter.isSome = true := by
  rcases hi : s.interpreter with _ | v
  · by_cases hf : env.modelFileExists = false
    · simp [load_tflite_model, hi, hf] at hout
    · by_cases hc : env.constructOk = false
      · simp [load_tflite_model, hi, hf, hc] at hout
      · by_cases ha : env.allocOk = false
        · simp [load_tflite_model, hi, hf, hc, ha] at hout
        · simp [load_tflite_model, hi, hf, hc, ha]
  · simp [load_tflite_model, hi]

/-- Claim C1: when the model handle is already set, `load_tflite_model`
returns the existing handle immediately, performs no load or file I/O,
and leaves the globals (hence the handle) unchanged. -/
theorem load_tflite_model_idempotent (env : Env) (s : ServerState) (h : Nat)
    (hs : s.interpreter = some h) :
    load_tflite_model env s =
      { state := s
        outcome := Except.ok (h, s.input_details, s.output_details)
        attemptedLoad := false } := by
  simp [load_tflite_model, hs]

/-- Witness for C1 at a fully loaded worker state. -/
theorem load_tflite_model_idempotent_witness :
    loadedState.interpreter = some 5 ∧
    load_tflite_model envOk loadedState =
      { state := loadedState
        outcome := Except.ok (5, loadedState.input_details, loadedState.output_details)
        attemptedLoad := false } :=
  ⟨rfl, load_tflite_model_idempotent envOk loadedState 5 rfl⟩

/-- Claim C2 (amended): a load failure during the existence check or the
interpreter constructor propagates to the caller and leaves the globals
exactly as they were, so with the handle unset a later call retries the
load.  (A failure in `allocate_tensors` is the exception: it leaves the
constructed interpreter stored, see the counterexample.) -/
theorem load_early_failure_propagates_and_leaves_unset (env : Env) (s : ServerState)
    (hs : s.interpreter = none)
    (hfail : env.modelFileExists = false ∨ env.constructOk = false) :
    (∃ e, (load_tflite_model env s).outcome = Except.error e) ∧
    (load_tflite_model env s).state = s ∧
    (load_tflite_model env s).attemptedLoad = true := by
  rcases hfail with hf | hc
  · exact ⟨⟨LoadError.fileNotFound, by simp [load_tflite_model, hs, hf]⟩,
      by simp [load_tflite_model, hs, hf], by simp [load_tflite_model, hs, hf]⟩
  · by_cases hf : env.modelFileExists = false
    · exact ⟨⟨LoadError.fileNotFound, by simp [load_tflite_model, hs, hf]⟩,
        by simp [load_tflite_model, hs, hf], by simp [load_tflite_model, hs, hf]⟩
    · exact ⟨⟨LoadError.deserializeError, by simp [load_tflite_model, hs, hf, hc]⟩,
        by simp [load_tflite_model, hs, hf, hc], by simp [load_tflite_model, hs, hf, hc]⟩

/-- Witness for the amended C2: with the model file absent, the first
load raises and the globals stay fresh. -/
theorem load_early_failure_witness :
    initialState.interpreter = none ∧
    (envNoFile.modelFileExists = false ∨ envNoFile.constructOk = false) ∧
    ((∃ e, (load_tflite_model envNoFile initialState).outcome = Except.error e) ∧
      (load_tflite_model envNoFile initialState).state = initialState ∧
      (load_tflite_model envNoFile initialState).attemptedLoad = true) :=
  ⟨rfl, Or.inl rfl,
    load_early_failure_propagates_and_leaves_unset envNoFile initialState rfl (Or.inl rfl)⟩

/-- Counterexample to C2 as stated: when `allocate_tensors()` raises
after the constructor returned, the error propagates but the handle is
left set (and the details unset), so no retry happens later. -/
theorem load_alloc_failure_keeps_handle_cex :
    (load_tflite_model envAllocFail initialState).outcome =
      Except.error LoadError.allocateError ∧
    (load_tflite_model envAllocFail initialState).state.interpreter = some 7 ∧
    (load_tflite_model envAllocFail initialState).state.input_details = none := by
  exact ⟨rfl, rfl, rfl⟩

/-- Claim C8 (amended): a `/predict` request whose multipart form lacks
the `file` field gets status 400 with body error message
"No file part in request", and the globals are untouched. -/
theorem predict_missing_file_field_response (env : Env) (s : ServerState)
    (req : PredictRequest) (h : req.hasFilePart = false) :
    (predict env s req).response =
      { status := 400
        body := Json.obj [("error", Json.str "No file part in request")] } ∧
    (predict env s req).state = s := by
  constructor <;> simp [predict, h]

/-- Witness for the amended C8. -/
theorem predict_missing_file_field_response_witness :
    reqNoFile.hasFilePart = false ∧
    ((predict envOk initialState reqNoFile).response =
      { status := 400
        body := Json.obj [("error", Json.str "No file part in request")] } ∧
    (predict envOk initialState reqNoFile).state = initialState) :=
  ⟨rfl, predict_missing_file_field_response envOk initialState reqNoFile rfl⟩

/-- Counterexample to C8 as stated: the emitted body is
"No file part in request", not exactly "No file part". -/
theorem predict_missing_file_field_body_cex :
    (predict envOk initialState reqNoFile).response.body =
      Json.obj [("error", Json.str "No file part in request")] ∧
    Json.obj [("error", Json.str "No file part in request")] ≠
      Json.obj [("error", Json.str "No file part")] :=
  ⟨rfl, by simp⟩

/-- Claim C10: a `/predict` request failing validation (missing `file`
field or empty filename) returns 400 without invoking the loader and
without changing the globals, in any environment - in particular even
when the model file is absent. -/
theorem predict_validation_failure_frame (env : Env) (s : ServerState)
    (req : PredictRequest)
    (h : req.hasFilePart = false ∨ req.filename = "") :
    (predict env s req).response.status = 400 ∧
    (predict env s req).state = s ∧
    (predict env s req).loaderInvoked = false := by
  rcases h with h | h
  · refine ⟨?_, ?_, ?_⟩ <;> simp [predict, h]
  · by_cases hfp : req.hasFilePart = false
    · refine ⟨?_, ?_, ?_⟩ <;> simp [predict, hfp]
    · refine ⟨?_, ?_, ?_⟩ <;> simp [predict, hfp, h]

/-- Witness for C10: an empty-form request against a worker with no
model file still gets its 400 and leaves the state alone. -/
theorem predict_validation_failure_frame_witness :
    (reqNoFile.hasFilePart = false ∨ reqNoFile.filename = "") ∧
    ((predict envNoFile initialState reqNoFile).response.status = 400 ∧
      (predict envNoFile initialState reqNoFile).state = initialState ∧
      (predict envNoFile initialState reqNoFile).loaderInvoked = false) :=
  ⟨Or.inl rfl,
    predict_validation_failure_frame envNoFile initialState reqNoFile (Or.inl rfl)⟩

/-- Claim C9 (amended): the check-then-load sequence is not guarded by
any mutual exclusion, so under thread interleaving there is a schedule
in which both threads pass the not-yet-loaded check and perform two
loads, and a schedule in which a thread is handed the interpreter
before its tensors and details are in place. -/
theorem unguarded_loader_race_behaviors (handle : Nat) :
    (∃ sched : List Bool,
      (raceRun handle sched).t1 = TPhase.done ∧
      (raceRun handle sched).t2 = TPhase.done ∧
      (raceRun handle sched).loads = 2) ∧
    (∃ sched : List Bool,
      (raceRun handle sched).t2 = TPhase.done ∧
      (raceRun handle sched).t2Early = true) := by
  exact ⟨⟨[false, true, false, true, false, true], rfl, rfl, rfl⟩,
    ⟨[false, false, true], rfl, rfl⟩⟩

/-- Claim C3 (amended): the health endpoint reports the presence of the
interpreter global.  It says "not loaded" on a fresh worker and after a
load attempt that failed before the interpreter constructor returned,
and it says "loaded" after any successful `/predict`.  (After a load
attempt that failed inside `allocate_tensors` it reports "loaded" even
though no load succeeded, see the counterexample.) -/
theorem health_status_tracks_interpreter (env : Env) (s : ServerState)
    (req : PredictRequest) :
    health_model_status initialState = "not loaded" ∧
    (s.interpreter = none →
      (env.modelFileExists = false ∨ env.constructOk = false) →
      health_model_status (load_tflite_model env s).state = "not loaded") ∧
    ((predict env s req).response.status = 200 →
      health_model_status (predict env s req).state = "loaded") := by
  refine ⟨rfl, ?_, ?_⟩
  · intro hs hfail
    have h := load_early_failure_propagates_and_leaves_unset env s hs hfail
    rw [h.2.1]
    simp [health_model_status, hs]
  · intro h200
    by_cases hfp : req.hasFilePart = false
    · simp [predict, hfp] at h200
    · by_cases hfn : req.filename = ""
      · simp [predict, hfp, hfn] at h200
      · rcases hout : (load_tflite_model env s).outcome with e | ⟨hh, idet?, odet?⟩
        · simp [predict, hfp, hfn, hout] at h200
        · have hsome := load_ok_interpreter_isSome env s _ hout
          rcases hdec : req.decoded with _ | img
          · simp [predict, hfp, hfn, hout, hdec] at h200
          · rcases idet? with _ | idet
            · simp [predict, hfp, hfn, hout, hdec] at h200
            · rcases odet? with _ | odet
              · simp [predict, hfp, hfn, hout, hdec] at h200
              · by_cases hemp : env.infer (pipelineTensor img idet.shape) = []
                · simp [predict, hfp, hfn, hout, hdec, hemp] at h200
                · by_cases hpci :
                    np_argmax (env.infer (pipelineTensor img idet.shape)) <
                      class_names.length
                  · by_cases hlen :
                      class_names.length ≤
                        (env.infer (pipelineTensor img idet.shape)).length
                    · have hstate : (predict env s req).state =
                          (load_tflite_model env s).state := by
                        simp [predict, hfp, hfn, hout, hdec, hemp, hpci, hlen]
                      rw [hstate]
                      simp [health_model_status, hsome]
                    · have hstate : (predict env s req).state =
                          (load_tflite_model env s).state := by
                        simp [predict, hfp, hfn, hout, hdec, hemp, hpci, hlen]
                      rw [hstate]
                      simp [health_model_status, hsome]
                  · have hstate : (predict env s req).state =
                        (load_tflite_model env s).state := by
                      simp [predict, hfp, hfn, hout, hdec, hemp, hpci]
                    rw [hstate]
                    simp [health_model_status, hsome]

/-- Witness for the amended C3 at the all-success environment. -/
theorem health_status_tracks_interpreter_witness :
    health_model_status initialState = "not loaded" ∧
    (initialState.interpreter = none →
      (envOk.modelFileExists = false ∨ envOk.constructOk = false) →
      health_model_status (load_tflite_model envOk initialState).state = "not loaded") ∧
    ((predict envOk initialState reqValid).response.status = 200 →
      health_model_status (predict envOk initialState reqValid).state = "loaded") :=
  health_status_tracks_interpreter envOk initialState reqValid

/-- Counterexample to C3 as stated: after a `/predict` whose load
attempt failed inside `allocate_tensors` (so no prediction request has
ever successfully loaded the model), the health endpoint reports
"loaded". -/
theorem health_loaded_after_failed_load_cex :
    (predict envAllocFail initialState reqValid).response.status = 500 ∧
    health_model_status (predict envAllocFail initialState reqValid).state =
      "loaded" := by
  exact ⟨rfl, rfl⟩

/-- Claim C4 (amended): a `/predict` request whose `file` field holds
undecodable bytes is answered with status 500 - not 400 - carrying a
short JSON error body (the logged traceback is never returned). -/
theorem predict_decode_failure_returns_500_json (env : Env) (s : ServerState)
    (req : PredictRequest)
    (h1 : req.hasFilePart = true) (h2 : req.filename ≠ "")
    (h3 : req.decoded = none) (h4 : s.interpreter = none)
    (h5 : env.modelFileExists = true) (h6 : env.constructOk = true)
    (h7 : env.allocOk = true) :
    (predict env s req).response =
      { status := 500
        body := Json.obj [("error", Json.str "cannot identify image file")] } := by
  simp [predict, h1, h2, h3, load_tflite_model, h4, h5, h6, h7]

/-- Witness for the amended C4. -/
theorem predict_decode_failure_returns_500_json_witness :
    reqBadImage.hasFilePart = true ∧ reqBadImage.filename ≠ "" ∧
    reqBadImage.decoded = none ∧ initialState.interpreter = none ∧
    envOk.modelFileExists = true ∧ envOk.constructOk = true ∧
    envOk.allocOk = true ∧
    (predict envOk initialState reqBadImage).response =
      { status := 500
        body := Json.obj [("error", Json.str "cannot identify image file")] } :=
  ⟨rfl, by decide, rfl, rfl, rfl, rfl, rfl,
    predict_decode_failure_returns_500_json envOk initialState reqBadImage
      rfl (by decide) rfl rfl rfl rfl rfl⟩

/-- Counterexample to C4 as stated: the zero-byte upload is answered
with 500, not with the claimed 400. -/
theorem predict_decode_failure_not_400_cex :
    (predict envOk initialState reqBadImage).response.status = 500 ∧
    (predict envOk initialState reqBadImage).response.status ≠ 400 := by
  exact ⟨rfl, by decide⟩

/-- On a nonempty vector, `np_argmax` returns an in-range index of a
maximum value, and every strictly earlier entry is strictly smaller
(first-occurrence tie-breaking). -/
lemma np_argmax_spec (l : List ℚ) (hl : l ≠ []) :
    np_argmax l < l.length ∧
    (∀ j, j < l.length → l.getD j 0 ≤ l.getD (np_argmax l) 0) ∧
    (∀ j, j < np_argmax l → l.getD j 0 < l.getD (np_argmax l) 0) := by
  induction l with
  | nil => exact absurd rfl hl
  | cons x t ih =>
    cases t with
    | nil =>
      refine ⟨by simp [np_argmax], ?_, ?_⟩
      · intro j hj
        have hj0 : j = 0 := by
          simp only [List.length_singleton] at hj
          omega
        simp [np_argmax, hj0]
      · intro j hj
        simp [np_argmax] at hj
    | cons y ys =>
      obtain ⟨ih1, ih2, ih3⟩ := ih (by simp)
      by_cases hx : x < (y :: ys).getD (np_argmax (y :: ys)) 0
      · have heq : np_argmax (x :: y :: ys) = np_argmax (y :: ys) + 1 := by
          simp only [np_argmax]
          rw [if_pos hx]
        rw [heq]
        refine ⟨by simpa using Nat.succ_lt_succ ih1, ?_, ?_⟩
        · intro j hj
          cases j with
          | zero =>
            simp only [List.getD_cons_zero, List.getD_cons_succ]
            exact le_of_lt hx
          | succ j' =>
            have hj' : j' < (y :: ys).length := by
              simpa using hj
            simp only [List.getD_cons_succ]
            exact ih2 j' hj'
        · intro j hj
          cases j with
          | zero =>
            simp only [List.getD_cons_zero, List.getD_cons_succ]
            exact hx
          | succ j' =>
            have hj' : j' < np_argmax (y :: ys) := by omega
            simp only [List.getD_cons_succ]
            exact ih3 j' hj'
      · have hge : (y :: ys).getD (np_argmax (y :: ys)) 0 ≤ x := le_of_not_lt hx
        have heq : np_argmax (x :: y :: ys) = 0 := by
          simp only [np_argmax]
          rw [if_neg hx]
        rw [heq]
        refine ⟨by simp, ?_, ?_⟩
        · intro j hj
          cases j with
          | zero => simp
          | succ j' =>
            have hj' : j' < (y :: ys).length := by
              simpa using hj
            have hle := ih2 j' hj'
            simp only [List.getD_cons_succ, List.getD_cons_zero]
            exact le_trans hle hge
        · intro j hj
          exact absurd hj (Nat.not_lt_zero j)

/-- Claim C6: in every successful prediction, the emitted class is the
label-table entry at the index `np.argmax` selects, the emitted
confidence is the raw score at that index, and that index is the first
occurrence of the maximum score (ties broken by lowest index). -/
theorem predict_selects_first_max (env : Env) (s : ServerState)
    (req : PredictRequest) (img : Image)
    (h1 : req.hasFilePart = true) (h2 : req.filename ≠ "")
    (h3 : req.decoded = some img) (h4 : s.interpreter = none)
    (h5 : env.modelFileExists = true) (h6 : env.constructOk = true)
    (h7 : env.allocOk = true)
    (hlen : (env.infer (pipelineTensor img env.inDetails.shape)).length =
      class_names.length) :
    np_argmax (env.infer (pipelineTensor img env.inDetails.shape)) <
      (env.infer (pipelineTensor img env.inDetails.shape)).length ∧
    (∀ j, j < (env.infer (pipelineTensor img env.inDetails.shape)).length →
      (env.infer (pipelineTensor img env.inDetails.shape)).getD j 0 ≤
        (env.infer (pipelineTensor img env.inDetails.shape)).getD
          (np_argmax (env.infer (pipelineTensor img env.inDetails.shape))) 0) ∧
    (∀ j, j < np_argmax (env.infer (pipelineTensor img env.inDetails.shape)) →
      (env.infer (pipelineTensor img env.inDetails.shape)).getD j 0 <
        (env.infer (pipelineTensor img env.inDetails.shape)).getD
          (np_argmax (env.infer (pipelineTensor img env.inDetails.shape))) 0) ∧
    (predict env s req).response =
      { status := 200
        body := Json.obj
          [("predicted_stage", Json.str (class_names.getD
              (np_argmax (env.infer (pipelineTensor img env.inDetails.shape))) "")),
           ("confidence", Json.num
              ((env.infer (pipelineTensor img env.inDetails.shape)).getD
                (np_argmax (env.infer (pipelineTensor img env.inDetails.shape))) 0)),
           ("all_probabilities", jsonify_probabilities
              (env.infer (pipelineTensor img env.inDetails.shape)))] } := by
  have hne : env.infer (pipelineTensor img env.inDetails.shape) ≠ [] := by
    intro h0
    rw [h0] at hlen
    simp [class_names] at hlen
  obtain ⟨ha1, ha2, ha3⟩ :=
    np_argmax_spec (env.infer (pipelineTensor img env.inDetails.shape)) hne
  have hk5 : np_argmax (env.infer (pipelineTensor img env.inDetails.shape)) <
      class_names.length := by
    rw [← hlen]
    exact ha1
  have hlen5 : class_names.length ≤
      (env.infer (pipelineTensor img env.inDetails.shape)).length :=
    le_of_eq hlen.symm
  refine ⟨ha1, ha2, ha3, ?_⟩
  simp [predict, h1, h2, h3, load_tflite_model, h4, h5, h6, h7, hne, hk5, hlen5]

/-- Witness for C6 on the tied score vector [1, 3, 3, 2, 0]: the tie
between indices 1 and 2 resolves to index 1, giving label "Mild" with
confidence 3. -/
theorem predict_selects_first_max_witness :
    reqValid.hasFilePart = true ∧ reqValid.filename ≠ "" ∧
    (envOk.infer (pipelineTensor sampleImg envOk.inDetails.shape)).length =
      class_names.length ∧
    np_argmax (envOk.infer (pipelineTensor sampleImg envOk.inDetails.shape)) = 1 ∧
    (predict envOk initialState reqValid).response =
      { status := 200
        body := Json.obj
          [("predicted_stage", Json.str "Mild"),
           ("confidence", Json.num 3),
           ("all_probabilities", jsonify_probabilities [1, 3, 3, 2, 0])] } := by
  refine ⟨rfl, by decide, by decide, by decide, ?_⟩
  have h := predict_selects_first_max envOk initialState reqValid sampleImg
    rfl (by decide) rfl rfl rfl rfl rfl (by decide)
  exact h.2.2.2

/-- On an RGB-mode image the numpy array shape is (height, width, 3). -/
lemma npShape_of_RGB (img : Image) (h : img.mode = ImgMode.RGB) :
    npShape img = [img.height, img.width, 3] := by
  unfold npShape
  rw [h]

/-- Claim C5: for every well-formed input image of any size and channel
mode, the tensor fed to the interpreter has shape (1, H, W, 3) with H
and W read from positions 1 and 2 of the declared model input shape
(the theorem is uniform in that shape, so no constant is baked in), the
element type is float32, and every element is some byte value divided
by 255, hence lies in [0, 1]. -/
theorem preprocess_tensor_shape_and_range (img : Image) (input_shape : List Nat)
    (hwf : img.WF) :
    (pipelineTensor img input_shape).shape =
      [1, input_shape.getD 1 0, input_shape.getD 2 0, 3] ∧
    (pipelineTensor img input_shape).dtype = DType.float32 ∧
    ∀ y x c : Nat, ∃ p : Nat, p ≤ 255 ∧
      (pipelineTensor img input_shape).val [0, y, x, c] = (p : ℚ) / 255 ∧
      0 ≤ (pipelineTensor img input_shape).val [0, y, x, c] ∧
      (pipelineTensor img input_shape).val [0, y, x, c] ≤ 1 := by
  refine ⟨?_, rfl, ?_⟩
  · show 1 :: npShape ((toRGB img).resize (input_shape.getD 2 0, input_shape.getD 1 0)) = _
    rw [npShape_of_RGB _ (resize_toRGB_mode img _)]
    rfl
  · intro y x c
    have hp := resize_WF (toRGB img)
      (input_shape.getD 2 0, input_shape.getD 1 0) (toRGB_WF img hwf) y x c
    refine ⟨((toRGB img).resize (input_shape.getD 2 0, input_shape.getD 1 0)).pixel y x c,
      hp, rfl, ?_, ?_⟩
    · show (0:ℚ) ≤
        (((toRGB img).resize (input_shape.getD 2 0, input_shape.getD 1 0)).pixel y x c : ℚ) / 255
      positivity
    · show (((toRGB img).resize (input_shape.getD 2 0, input_shape.getD 1 0)).pixel y x c : ℚ) / 255 ≤ 1
      rw [div_le_one (by norm_num : (0:ℚ) < 255)]
      exact_mod_cast hp

/-- Witness for C5 on a grayscale image against a declared (1, 4, 5, 3)
input shape. -/
theorem preprocess_tensor_shape_and_range_witness :
    grayImg.WF ∧
    ((pipelineTensor grayImg [1, 4, 5, 3]).shape = [1, 4, 5, 3] ∧
     (pipelineTensor grayImg [1, 4, 5, 3]).dtype = DType.float32 ∧
     ∀ y x c : Nat, ∃ p : Nat, p ≤ 255 ∧
       (pipelineTensor grayImg [1, 4, 5, 3]).val [0, y, x, c] = (p : ℚ) / 255 ∧
       0 ≤ (pipelineTensor grayImg [1, 4, 5, 3]).val [0, y, x, c] ∧
       (pipelineTensor grayImg [1, 4, 5, 3]).val [0, y, x, c] ≤ 1) :=
  ⟨fun _ _ _ => by
      show (128 : Nat) ≤ 255
      decide,
    preprocess_tensor_shape_and_range grayImg [1, 4, 5, 3] (fun _ _ _ => by
      show (128 : Nat) ≤ 255
      decide)⟩

/-- Claim C7 (amended): a mismatch between the label-table length and
the model output length is not detected at startup (module import only
initialises the globals, see `initialState`); it surfaces at request
time, either as a 500 (index error raised while labelling, or while
building the per-class map for a too-short output) or, when the output
is longer than the table and the argmax lands inside it, as a 200 whose
per-class map silently drops the extra scores. -/
theorem label_mismatch_surfaces_at_request_time (env : Env) (s : ServerState)
    (req : PredictRequest) (img : Image)
    (h1 : req.hasFilePart = true) (h2 : req.filename ≠ "")
    (h3 : req.decoded = some img) (h4 : s.interpreter = none)
    (h5 : env.modelFileExists = true) (h6 : env.constructOk = true)
    (h7 : env.allocOk = true)
    (hmm : (env.infer (pipelineTensor img env.inDetails.shape)).length ≠
      class_names.length) :
    (predict env s req).response.status = 500 ∨
    ((predict env s req).response.status = 200 ∧
      class_names.length < (env.infer (pipelineTensor img env.inDetails.shape)).length) := by
  by_cases hemp : env.infer (pipelineTensor img env.inDetails.shape) = []
  · left
    simp [predict, h1, h2, h3, load_tflite_model, h4, h5, h6, h7, hemp]
  · by_cases hpci : np_argmax (env.infer (pipelineTensor img env.inDetails.shape)) <
      class_names.length
    · by_cases hlen : class_names.length ≤
        (env.infer (pipelineTensor img env.inDetails.shape)).length
      · right
        constructor
        · simp [predict, h1, h2, h3, load_tflite_model, h4, h5, h6, h7, hemp, hpci, hlen]
        · exact lt_of_le_of_ne hlen (Ne.symm hmm)
      · left
        simp [predict, h1, h2, h3, load_tflite_model, h4, h5, h6, h7, hemp, hpci, hlen]
    · left
      simp [predict, h1, h2, h3, load_tflite_model, h4, h5, h6, h7, hemp, hpci]

/-- Witness for the amended C7 with a six-score output. -/
theorem label_mismatch_surfaces_witness :
    reqValid.hasFilePart = true ∧ reqValid.filename ≠ "" ∧
    (envSix.infer (pipelineTensor sampleImg envSix.inDetails.shape)).length ≠
      class_names.length ∧
    ((predict envSix initialState reqValid).response.status = 500 ∨
      ((predict envSix initialState reqValid).response.status = 200 ∧
        class_names.length <
          (envSix.infer (pipelineTensor sampleImg envSix.inDetails.shape)).length)) :=
  ⟨rfl, by decide, by decide,
    label_mismatch_surfaces_at_request_time envSix initialState reqValid sampleImg
      rfl (by decide) rfl rfl rfl rfl rfl (by decide)⟩

/-- Counterexample to C7 as stated: with a six-score output against the
five-entry table no ConfigurationError happens at startup; the request
is served and fails mid-request with a 500 index error. -/
theorem label_mismatch_mid_request_cex :
    (predict envSix initialState reqValid).response =
      { status := 500
        body := Json.obj [("error", Json.str "list index out of range")] } ∧
    (predict envSix initialState reqValid).loaderInvoked = true :=
  ⟨rfl, rfl⟩

/-- Witness for the amended C9 at a concrete handle value. -/
theorem unguarded_loader_race_behaviors_witness :
    (∃ sched : List Bool,
      (raceRun 7 sched).t1 = TPhase.done ∧
      (raceRun 7 sched).t2 = TPhase.done ∧
      (raceRun 7 sched).loads = 2) ∧
    (∃ sched : List Bool,
      (raceRun 7 sched).t2 = TPhase.done ∧
      (raceRun 7 sched).t2Early = true) :=
  unguarded_loader_race_behaviors 7

/-- Counterexample to C9 as stated: a concrete interleaving in which
both threads pass the `interpreter is None` check and two loads are
performed before both finish. -/
theorem unguarded_loader_double_load_cex :
    (raceRun 7 [false, true, false, true, false, true]).loads = 2 ∧
    (raceRun 7 [false, true, false, true, false, true]).t1 = TPhase.done ∧
    (raceRun 7 [false, true, false, true, false, true]).t2 = TPhase.done := by
  decide

end DRModel
